import Mathlib

/-!
Verification of the tweets data-model layer of a Django twitter clone
(src/tweets/models.py). The file shallowly embeds the two model classes
`Tweet` and `TweetPhoto`, the polymorphic `Like` collaborator they query,
and the framework semantics of the declared field options
(`max_length`, `choices`, `default`, `on_delete=SET_NULL`, `Meta.ordering`),
and proves or refutes the specification's claims about them.

Timestamps are modelled as integer seconds since the Unix epoch, in UTC.
-/

/-- The `seconds` field of a Python `timedelta` holding `delta` total seconds.
Python normalises a timedelta so that `0 ≤ seconds < 86400` (the sub-day
remainder after taking out whole days with floor division), which for the
positive modulus 86400 is exactly the Euclidean remainder. -/
def timedeltaSecondsField (delta : Int) : Int := delta % 86400

/-- Django content types, used for the polymorphic Like relation:
`ContentType.objects.get_for_model(Tweet)` is modelled as `ContentType.tweet`. -/
inductive ContentType where
  | tweet
  | other (name : String)
deriving DecidableEq

/-- Embedding of the `Tweet` model (src/tweets/models.py:10-19): a nullable
foreign key to the authoring user (stored as the user's id), a content string
declared with `max_length=255`, and an auto-assigned creation timestamp. -/
structure Tweet where
  id : Nat
  user : Option Nat
  content : String
  created_at : Int
deriving DecidableEq

/-- Embedding of `Tweet.hours_to_now` (src/tweets/models.py:43-46):
`(utc_now() - self.created_at).seconds // 3600`. Note the code reads the
timedelta's `seconds` component (the sub-day remainder), not
`total_seconds()`. -/
def Tweet.hours_to_now (t : Tweet) (now : Int) : Int :=
  timedeltaSecondsField (now - t.created_at) / 3600

/-- Embedding of a row of the external polymorphic `Like` collaborator:
a generic target reference (content type plus object id) and a creation
timestamp. -/
structure Like where
  id : Nat
  content_type : ContentType
  object_id : Nat
  created_at : Int
deriving DecidableEq

/-- Comparison used by `.order_by(-created_at)`: descending creation time. -/
def likeDesc (a b : Like) : Bool := b.created_at ≤ a.created_at

/-- Embedding of `Tweet.like_set` (src/tweets/models.py:52-58):
`Like.objects.filter(content_type=ContentType(Tweet), object_id=self.id)
.order_by(-created_at)`, run against an explicit list of Like rows standing
for the Like table. -/
def Tweet.like_set (t : Tweet) (likes : List Like) : List Like :=
  (likes.filter fun l =>
    l.content_type == ContentType.tweet && l.object_id == t.id).mergeSort likeDesc

/-- Modelled from the spec: `tweets/constants.py` is not part of this source
fragment; the spec describes `TweetPhotoStatus` as a small-integer enum with
members PENDING, APPROVED, REJECTED, PENDING being the default. The concrete
integer values are a modelling choice; no claim depends on them. -/
def TweetPhotoStatus.PENDING : Int := 0

/-- Modelled from the spec: the APPROVED moderation status. -/
def TweetPhotoStatus.APPROVED : Int := 1

/-- Modelled from the spec: the REJECTED moderation status. -/
def TweetPhotoStatus.REJECTED : Int := 2

/-- Modelled from the spec: `TWEET_PHOTO_STATUS_CHOICES`, the fixed set of
admissible values for `TweetPhoto.status`. -/
def TWEET_PHOTO_STATUS_CHOICES : List Int :=
  [TweetPhotoStatus.PENDING, TweetPhotoStatus.APPROVED, TweetPhotoStatus.REJECTED]

/-- Embedding of the `TweetPhoto` model (src/tweets/models.py:61-97):
nullable foreign keys to the owning tweet and the uploading user, a required
file reference, a display order, a moderation status, the soft-delete pair
`has_deleted`/`deleted_at`, and an auto-assigned creation timestamp. -/
structure TweetPhoto where
  id : Nat
  tweet : Option Nat
  user : Option Nat
  file : String
  order : Int
  status : Int
  has_deleted : Bool
  deleted_at : Option Int
  created_at : Int
deriving DecidableEq

/-- Construction of a `TweetPhoto` supplying only `tweet`, `user` and `file`:
every other column takes its declared default (`order=0`,
`status=PENDING`, `has_deleted=False`, `deleted_at` null) and `created_at`
is auto-assigned from the current instant (`auto_now_add=True`). -/
def TweetPhoto.create (id : Nat) (tweet user : Option Nat) (file : String)
    (now : Int) : TweetPhoto :=
  { id := id, tweet := tweet, user := user, file := file, order := 0,
    status := TweetPhotoStatus.PENDING, has_deleted := false,
    deleted_at := none, created_at := now }

/-- Validation of `TweetPhoto.status` against the declared `choices`
(src/tweets/models.py:76-79): the value must be one of the fixed choices. -/
def TweetPhoto.statusValid (p : TweetPhoto) : Bool :=
  decide (p.status ∈ TWEET_PHOTO_STATUS_CHOICES)

/-- Write of a Tweet row: the storage layer enforces the declared
`max_length=255` on `content` (src/tweets/models.py:18), rejecting longer
values as a validation error and leaving the stored rows untouched. -/
def saveTweet (db : List Tweet) (t : Tweet) : Except String (List Tweet) :=
  if t.content.length ≤ 255 then Except.ok (db ++ [t])
  else Except.error "value too long for content of max_length 255"

/-- Write of a TweetPhoto row: the storage layer enforces the declared
`choices` on `status` (src/tweets/models.py:76-79), rejecting values outside
the fixed choice set as a validation error. -/
def saveTweetPhoto (db : List TweetPhoto) (p : TweetPhoto) :
    Except String (List TweetPhoto) :=
  if p.status ∈ TWEET_PHOTO_STATUS_CHOICES then Except.ok (db ++ [p])
  else Except.error "invalid status choice"

/-- Deleting the User with id `uid`, restricted to its effect on the Tweet
table: the declared `on_delete=SET_NULL` (src/tweets/models.py:11-17) keeps
every row and nulls the `user` column of the rows that referenced `uid`. -/
def deleteUserOnTweets (uid : Nat) (db : List Tweet) : List Tweet :=
  db.map fun t => if t.user = some uid then { t with user := none } else t

/-- Deleting the User with id `uid`, restricted to its effect on the
TweetPhoto table: the declared `on_delete=SET_NULL`
(src/tweets/models.py:69) keeps every row and nulls the `user` column of the
rows that referenced `uid`. -/
def deleteUserOnPhotos (uid : Nat) (db : List TweetPhoto) : List TweetPhoto :=
  db.map fun p => if p.user = some uid then { p with user := none } else p

/-- Ascending order on the nullable user key, nulls first. -/
def optNatLt : Option Nat → Option Nat → Bool
  | none, none => false
  | none, some _ => true
  | some _, none => false
  | some a, some b => decide (a < b)

/-- The comparison realising `Meta.ordering = (user, -created_at)`
(src/tweets/models.py:39): ascending user key, then descending creation
time. -/
def tweetLe (a b : Tweet) : Bool :=
  optNatLt a.user b.user || (a.user == b.user && decide (b.created_at ≤ a.created_at))

/-- An unfiltered Tweet query: with no explicit order-by the default
`Meta.ordering` applies; an explicit order-by comparison overrides it. -/
def queryTweets (orderBy : Option (Tweet → Tweet → Bool)) (db : List Tweet) :
    List Tweet :=
  match orderBy with
  | some le => db.mergeSort le
  | none => db.mergeSort tweetLe

/-- Demonstration tweet used by concrete witnesses. -/
def demoTweet : Tweet :=
  { id := 1, user := some 1, content := "hello", created_at := 0 }

/-- C10: for a Tweet whose `created_at` is in the past, `hours_to_now` always
lies between 0 and 23 inclusive, however old the tweet is, because the code
reads only the sub-day `seconds` component of the elapsed timedelta. -/
theorem hours_to_now_range (t : Tweet) (now : Int)
    (h : t.created_at ≤ now) :
    0 ≤ t.hours_to_now now ∧ t.hours_to_now now ≤ 23 := by
  unfold Tweet.hours_to_now timedeltaSecondsField
  omega

/-- Witness for C10 at a concrete tweet and instant 90000 s after creation. -/
theorem hours_to_now_range_witness :
    demoTweet.created_at ≤ 90000 ∧
      (0 ≤ demoTweet.hours_to_now 90000 ∧ demoTweet.hours_to_now 90000 ≤ 23) :=
  ⟨by decide, hours_to_now_range demoTweet 90000 (by decide)⟩

/-- C1: evaluation of the code at a tweet queried 90000 seconds (25 hours)
after creation: the code returns 1, while floor of the total elapsed seconds
divided by 3600 is 25 — the code reads the timedelta's sub-day `seconds`
component instead of its total seconds. -/
theorem hours_to_now_seconds_bug :
    demoTweet.hours_to_now 90000 = 1 ∧ (90000 - demoTweet.created_at) / 3600 = 25 := by
  decide

/-- C2: evaluation of the code at two query instants 82800 s (23 h) and
90000 s (25 h) after creation of the same tweet: the value falls from 23 to
1 as wall-clock time advances, so `hours_to_now` is not monotonically
non-decreasing. -/
theorem hours_to_now_not_monotone :
    demoTweet.hours_to_now 82800 = 23 ∧ demoTweet.hours_to_now 90000 = 1 ∧
      ¬ demoTweet.hours_to_now 82800 ≤ demoTweet.hours_to_now 90000 := by
  decide

/-- A TweetPhoto state the entity layer permits (its status is a declared
choice; no field validator links `has_deleted` and `deleted_at`) in which the
soft-delete flag is set while `deleted_at` is still null. -/
def orphanFlagPhoto : TweetPhoto :=
  { id := 1, tweet := some 1, user := some 1, file := "photo.jpg", order := 0,
    status := TweetPhotoStatus.PENDING, has_deleted := true,
    deleted_at := none, created_at := 0 }

/-- C3 counterexample: a TweetPhoto with `has_deleted = true` and a null
`deleted_at` passes every field validation the schema declares and is
accepted by a write, so the schema does not maintain the claimed
equivalence. -/
theorem has_deleted_iff_counterexample :
    orphanFlagPhoto.statusValid = true ∧
      saveTweetPhoto [] orphanFlagPhoto = Except.ok [orphanFlagPhoto] ∧
      orphanFlagPhoto.has_deleted = true ∧ orphanFlagPhoto.deleted_at = none :=
  ⟨by decide, rfl, rfl, rfl⟩

/-- C3 (amended): the declared defaults satisfy `has_deleted = false` and a
null `deleted_at`, so the equivalence holds in the default state; but the
schema itself does not enforce it — the entity layer admits a validated row
with `has_deleted = true` and a null `deleted_at`. -/
theorem has_deleted_default_consistent :
    (∀ (id : Nat) (tweet user : Option Nat) (file : String) (now : Int),
        (TweetPhoto.create id tweet user file now).has_deleted = false ∧
        (TweetPhoto.create id tweet user file now).deleted_at = none) ∧
      ∃ p : TweetPhoto, p.statusValid = true ∧ p.has_deleted = true ∧
        p.deleted_at = none :=
  ⟨fun _ _ _ _ _ => ⟨rfl, rfl⟩, orphanFlagPhoto, by decide, rfl, rfl⟩

/-- C8: creating a TweetPhoto with only `tweet`, `user` and `file` supplied
yields `order = 0`, `status = PENDING`, `has_deleted = false`, a null
`deleted_at`, and `created_at` auto-assigned to the creation instant. -/
theorem tweet_photo_defaults (id : Nat) (tweet user : Option Nat)
    (file : String) (now : Int) :
    (TweetPhoto.create id tweet user file now).order = 0 ∧
      (TweetPhoto.create id tweet user file now).status = TweetPhotoStatus.PENDING ∧
      (TweetPhoto.create id tweet user file now).has_deleted = false ∧
      (TweetPhoto.create id tweet user file now).deleted_at = none ∧
      (TweetPhoto.create id tweet user file now).created_at = now :=
  ⟨rfl, rfl, rfl, rfl, rfl⟩

/-- C5: a write of a Tweet whose content exceeds 255 characters is rejected
as a validation error (producing no new stored state), and a successful
write preserves the invariant that every stored Tweet's content is at most
255 characters long. -/
theorem content_max_length (db : List Tweet) (t : Tweet) :
    (255 < t.content.length →
        saveTweet db t =
          Except.error "value too long for content of max_length 255") ∧
      (∀ db', saveTweet db t = Except.ok db' →
        (∀ u ∈ db, u.content.length ≤ 255) →
        ∀ u ∈ db', u.content.length ≤ 255) := by
  constructor
  · intro h
    simp [saveTweet, Nat.not_le.mpr h]
  · intro db' hok hdb u hu
    by_cases hc : t.content.length ≤ 255
    · simp only [saveTweet, if_pos hc, Except.ok.injEq] at hok
      subst hok
      rcases List.mem_append.mp hu with h | h
      · exact hdb u h
      · simp only [List.mem_singleton] at h
        subst h
        exact hc
    · simp [saveTweet, hc] at hok

/-- A Tweet whose content is 256 characters long. -/
def longTweet : Tweet :=
  { id := 2, user := some 1, content := String.mk (List.replicate 256 'a'),
    created_at := 0 }

set_option maxRecDepth 4000 in
/-- Witness for C5: the 256-character tweet is rejected. -/
theorem content_max_length_witness :
    255 < longTweet.content.length ∧
      saveTweet [] longTweet =
        Except.error "value too long for content of max_length 255" :=
  ⟨by decide, (content_max_length [] longTweet).1 (by decide)⟩

/-- C9: a write of a TweetPhoto whose status is outside the fixed choice set
is rejected as a validation error, and a successful write preserves the
invariant that every stored row's status is one of the choices. -/
theorem status_choices_enforced (db : List TweetPhoto) (p : TweetPhoto) :
    (p.status ∉ TWEET_PHOTO_STATUS_CHOICES →
        saveTweetPhoto db p = Except.error "invalid status choice") ∧
      (∀ db', saveTweetPhoto db p = Except.ok db' →
        (∀ q ∈ db, q.status ∈ TWEET_PHOTO_STATUS_CHOICES) →
        ∀ q ∈ db', q.status ∈ TWEET_PHOTO_STATUS_CHOICES) := by
  constructor
  · intro h
    simp [saveTweetPhoto, h]
  · intro db' hok hdb q hq
    by_cases hc : p.status ∈ TWEET_PHOTO_STATUS_CHOICES
    · simp only [saveTweetPhoto, if_pos hc, Except.ok.injEq] at hok
      subst hok
      rcases List.mem_append.mp hq with h | h
      · exact hdb q h
      · simp only [List.mem_singleton] at h
        subst h
        exact hc
    · simp [saveTweetPhoto, hc] at hok

/-- A TweetPhoto carrying a status value outside the declared choices. -/
def badStatusPhoto : TweetPhoto :=
  { id := 3, tweet := some 1, user := some 1, file := "photo.jpg", order := 0,
    status := 99, has_deleted := false, deleted_at := none, created_at := 0 }

/-- Witness for C9: a photo with status 99 is rejected. -/
theorem status_choices_enforced_witness :
    badStatusPhoto.status ∉ TWEET_PHOTO_STATUS_CHOICES ∧
      saveTweetPhoto [] badStatusPhoto = Except.error "invalid status choice" :=
  ⟨by decide, (status_choices_enforced [] badStatusPhoto).1 (by decide)⟩

/-- Transitivity of the descending-creation-time comparison. -/
theorem likeDesc_trans (a b c : Like) (hab : likeDesc a b) (hbc : likeDesc b c) :
    likeDesc a c := by
  simp only [likeDesc, decide_eq_true_eq] at hab hbc ⊢
  omega

/-- Totality of the descending-creation-time comparison. -/
theorem likeDesc_total (a b : Like) : likeDesc a b || likeDesc b a := by
  simp only [likeDesc, Bool.or_eq_true, decide_eq_true_eq]
  omega

/-- C4: `like_set` returns exactly the Like rows whose polymorphic target is
(Tweet, this tweet's id); the result is ordered by creation time descending,
and when no Like row targets the tweet the result is empty. The embedding is
a pure function of the Like table, so the read is side-effect-free. -/
theorem like_set_spec (likes : List Like) (t : Tweet) :
    (∀ l, l ∈ t.like_set likes ↔
        (l ∈ likes ∧ l.content_type = ContentType.tweet ∧ l.object_id = t.id)) ∧
      (t.like_set likes).Pairwise (fun a b => b.created_at ≤ a.created_at) ∧
      ((∀ l ∈ likes, ¬(l.content_type = ContentType.tweet ∧ l.object_id = t.id)) →
        t.like_set likes = []) := by
  have hperm := List.mergeSort_perm
    (likes.filter fun l => l.content_type == ContentType.tweet && l.object_id == t.id)
    likeDesc
  refine ⟨?_, ?_, ?_⟩
  · intro l
    rw [Tweet.like_set, hperm.mem_iff, List.mem_filter]
    simp only [Bool.and_eq_true, beq_iff_eq, and_assoc]
  · have h := List.sorted_mergeSort likeDesc_trans likeDesc_total
      (likes.filter fun l => l.content_type == ContentType.tweet && l.object_id == t.id)
    exact h.imp fun hab => by
      simpa only [likeDesc, decide_eq_true_eq] using hab
  · intro hnone
    have hfil : (likes.filter fun l =>
        l.content_type == ContentType.tweet && l.object_id == t.id) = [] := by
      rw [List.filter_eq_nil_iff]
      intro l hl
      simpa only [Bool.and_eq_true, beq_iff_eq, not_and] using
        fun h1 h2 => hnone l hl ⟨h1, h2⟩
    rw [Tweet.like_set, hfil, List.mergeSort_nil]

/-- A Like row targeting something other than a Tweet. -/
def strayLike : Like :=
  { id := 7, content_type := ContentType.other "comment", object_id := 1,
    created_at := 5 }

/-- Witness for C4: a Tweet with no matching Like rows has an empty
`like_set`. -/
theorem like_set_spec_witness :
    (∀ l ∈ [strayLike],
        ¬(l.content_type = ContentType.tweet ∧ l.object_id = demoTweet.id)) ∧
      demoTweet.like_set [strayLike] = [] :=
  ⟨by decide, (like_set_spec [strayLike] demoTweet).2.2 (by decide)⟩

/-- C6: deleting a User deletes no Tweet or TweetPhoto row: both tables keep
their length, the rows that referenced the user have `user` set to null, the
rows that did not are untouched, and every other column (id, content,
created_at, tweet, file, order, status, has_deleted, deleted_at) is
unchanged at every position. -/
theorem user_delete_set_null (uid : Nat) (tweets : List Tweet)
    (photos : List TweetPhoto) :
    (deleteUserOnTweets uid tweets).length = tweets.length ∧
      (deleteUserOnPhotos uid photos).length = photos.length ∧
      (∀ i : Nat,
        ((deleteUserOnTweets uid tweets)[i]?).map Tweet.user
            = (tweets[i]?).map (fun t => if t.user = some uid then none else t.user) ∧
          ((deleteUserOnTweets uid tweets)[i]?).map Tweet.id
            = (tweets[i]?).map Tweet.id ∧
          ((deleteUserOnTweets uid tweets)[i]?).map Tweet.content
            = (tweets[i]?).map Tweet.content ∧
          ((deleteUserOnTweets uid tweets)[i]?).map Tweet.created_at
            = (tweets[i]?).map Tweet.created_at) ∧
      (∀ i : Nat,
        ((deleteUserOnPhotos uid photos)[i]?).map TweetPhoto.user
            = (photos[i]?).map (fun p => if p.user = some uid then none else p.user) ∧
          ((deleteUserOnPhotos uid photos)[i]?).map TweetPhoto.id
            = (photos[i]?).map TweetPhoto.id ∧
          ((deleteUserOnPhotos uid photos)[i]?).map TweetPhoto.tweet
            = (photos[i]?).map TweetPhoto.tweet ∧
          ((deleteUserOnPhotos uid photos)[i]?).map TweetPhoto.file
            = (photos[i]?).map TweetPhoto.file ∧
          ((deleteUserOnPhotos uid photos)[i]?).map TweetPhoto.order
            = (photos[i]?).map TweetPhoto.order ∧
          ((deleteUserOnPhotos uid photos)[i]?).map TweetPhoto.status
            = (photos[i]?).map TweetPhoto.status ∧
          ((deleteUserOnPhotos uid photos)[i]?).map TweetPhoto.has_deleted
            = (photos[i]?).map TweetPhoto.has_deleted ∧
          ((deleteUserOnPhotos uid photos)[i]?).map TweetPhoto.deleted_at
            = (photos[i]?).map TweetPhoto.deleted_at ∧
          ((deleteUserOnPhotos uid photos)[i]?).map TweetPhoto.created_at
            = (photos[i]?).map TweetPhoto.created_at) := by
  refine ⟨by simp [deleteUserOnTweets], by simp [deleteUserOnPhotos], ?_, ?_⟩
  · intro i
    rcases h : tweets[i]? with _ | t
    · simp [deleteUserOnTweets, h]
    · refine ⟨?_, ?_, ?_, ?_⟩ <;>
        · simp only [deleteUserOnTweets, List.getElem?_map, h, Option.map_some']
          split <;> rfl
  · intro i
    rcases h : photos[i]? with _ | p
    · simp [deleteUserOnPhotos, h]
    · refine ⟨?_, ?_, ?_, ?_, ?_, ?_, ?_, ?_, ?_⟩ <;>
        · simp only [deleteUserOnPhotos, List.getElem?_map, h, Option.map_some']
          split <;> rfl

/-- Totality of the default-ordering comparison. -/
theorem tweetLe_total (a b : Tweet) : tweetLe a b || tweetLe b a := by
  rcases ha : a.user with _ | ua <;> rcases hb : b.user with _ | ub <;>
    simp [tweetLe, optNatLt, ha, hb] <;> omega

/-- Transitivity of the default-ordering comparison. -/
theorem tweetLe_trans (a b c : Tweet) (hab : tweetLe a b) (hbc : tweetLe b c) :
    tweetLe a c := by
  rcases ha : a.user with _ | ua <;> rcases hb : b.user with _ | ub <;>
    rcases hc : c.user with _ | uc <;>
    simp [tweetLe, optNatLt, ha, hb, hc] at hab hbc ⊢ <;> omega

/-- C7: an unfiltered, unordered Tweet query returns a permutation of the
table sorted by the declared default ordering — ascending user key, and
descending `created_at` between rows of the same user (so rows are grouped
by user); an explicit order-by comparison overrides the default. -/
theorem default_ordering_spec (db : List Tweet) (le : Tweet → Tweet → Bool) :
    List.Perm (queryTweets none db) db ∧
      (queryTweets none db).Pairwise
        (fun a b => optNatLt a.user b.user = true ∨
          (a.user = b.user ∧ b.created_at ≤ a.created_at)) ∧
      queryTweets (some le) db = db.mergeSort le := by
  refine ⟨List.mergeSort_perm db tweetLe, ?_, rfl⟩
  have h := List.sorted_mergeSort tweetLe_trans tweetLe_total db
  exact h.imp fun hab => by
    simpa only [tweetLe, Bool.or_eq_true, Bool.and_eq_true, beq_iff_eq,
      decide_eq_true_eq] using hab
